import Mathlib

/-!
Verification of the geospatial membership engine of `streamlit-traceability`
(`src/main.py`). The script fetches survey records, parses a raw positional
string per record into latitude/longitude (line 53), loads two polygon layers
and normalizes their CRS to WGS84 (lines 66-71), performs a spatial join of
the survey points against the protected-areas layer with the `intersects`
predicate (line 104), derives one boolean `in_protected_area` flag per record
(line 107), and filters the flagged records into two alert lists
(lines 456 and 468).

Numbers: a Python float is modeled by `Flt`, an exact rational held as an
unnormalized numerator/denominator pair (the survey feed carries plain
decimal coordinates, which are exactly representable this way; `Flt` with
`den = 10 ^ k` is the exact value of a decimal literal). NaN, which pandas
introduces for missing cells, is modeled by `none` in `Option Flt`.
All comparisons are done by cross-multiplication, which agrees with the
rational order whenever denominators are positive, as they are for every
value this development constructs.
-/

namespace Traceability

/-- Exact rational model of a Python float value: `num / den`. -/
structure Flt where
  num : ℤ
  den : ℕ
  deriving DecidableEq, Repr

/-- `a ≤ b` by cross-multiplication (exact for positive denominators). -/
def Flt.le (a b : Flt) : Bool := decide (a.num * (b.den : ℤ) ≤ b.num * (a.den : ℤ))

/-- `a < b` by cross-multiplication (exact for positive denominators). -/
def Flt.lt (a b : Flt) : Bool := decide (a.num * (b.den : ℤ) < b.num * (a.den : ℤ))

/-- Exact subtraction over the common denominator. -/
def Flt.sub (a b : Flt) : Flt := ⟨a.num * (b.den : ℤ) - b.num * (a.den : ℤ), a.den * b.den⟩

/-- Exact multiplication. -/
def Flt.mul (a b : Flt) : Flt := ⟨a.num * b.num, a.den * b.den⟩

/-- The value is exactly zero (for positive denominators). -/
def Flt.isZero (a : Flt) : Bool := decide (a.num = 0)

/-- An integer as a `Flt`. -/
def Flt.ofInt (n : ℤ) : Flt := ⟨n, 1⟩

/-- A cell value after `astype(float)`: `none` models NaN. -/
abbrev Coord := Option Flt

/-- A survey point as built by `gpd.points_from_xy(df['lon'], df['lat'])`:
kept here as the `(lat, lon)` pair of the dataframe columns. -/
abbrev Pt := Coord × Coord

/-- Splits a character list at every character satisfying `p`, keeping empty
chunks, with the semantics of Python `str.split(sep)` for a one-character
separator. -/
def splitCharP (p : Char → Bool) : List Char → List (List Char)
  | [] => [[]]
  | c :: cs =>
    match splitCharP p cs, p c with
    | r, true => [] :: r
    | t :: ts, false => (c :: t) :: ts
    | [], false => [[c]]

/-- Embeds pandas `.str.split(' ')` on one cell: splitting on the literal
single-space character, exactly as Python `s.split(' ')` (consecutive spaces
yield empty tokens; no other whitespace is a separator). -/
def splitSpace (s : String) : List String :=
  (splitCharP (fun c => c = ' ') s.data).map String.mk

/-- Value of a list of decimal digit characters. -/
def digitsToNat (cs : List Char) : ℕ :=
  cs.foldl (fun a c => 10 * a + (c.toNat - 48)) 0

/-- A nonempty all-digit character list. -/
def isDigits (cs : List Char) : Bool :=
  decide (cs ≠ []) && cs.all Char.isDigit

/-- Strips an optional leading sign, returning the sign as an integer factor. -/
def parseSign : List Char → ℤ × List Char
  | '-' :: rest => (-1, rest)
  | '+' :: rest => (1, rest)
  | cs => (1, cs)

/-- Models Python `float(s)` on plain decimal literals: optional sign, digit
string with at most one decimal point and at least one digit; the value is
returned exactly, as `±(ip.fp) = ±(ip * 10^|fp| + fp) / 10^|fp|`. The
exponent / infinity / nan spellings that `float` also accepts are outside the
modeled subset (the survey feed's positional strings are plain decimals) and
are rejected here; nothing in this development depends on them. -/
def parseFloat (s : String) : Option Flt :=
  let (sgn, body) := parseSign s.data
  match body.splitOn '.' with
  | [ip] => if isDigits ip then some ⟨sgn * (digitsToNat ip : ℤ), 1⟩ else none
  | [ip, fp] =>
      if (isDigits ip && isDigits fp) ||
         ((ip.isEmpty && isDigits fp) || (isDigits ip && fp.isEmpty)) then
        some ⟨sgn * ((digitsToNat ip : ℤ) * (10 : ℤ) ^ fp.length + (digitsToNat fp : ℤ)),
              10 ^ fp.length⟩
      else none
  | _ => none

/-- Models `DataFrame.astype(float)` on a single cell of the expanded split
frame: a missing cell (a row shorter than the widest row is padded with
`None` by `expand=True`) converts to NaN; a parseable string converts to its
value; any other string raises `ValueError`, modeled as `.error ()`. -/
def cellToFloat : Option String → Except Unit Coord
  | none => .ok none
  | some s =>
    match parseFloat s with
    | some q => .ok (some q)
    | none => .error ()

/-- One row of line 53: the first two cells of the space-split string are
converted to float, as `(lat, lon)`. -/
def rowToCoords (r : String) : Except Unit (Coord × Coord) :=
  match cellToFloat (splitSpace r)[0]?, cellToFloat (splitSpace r)[1]? with
  | .ok lat, .ok lon => .ok (lat, lon)
  | _, _ => .error ()

/-- Vectorized `astype(float)` over the batch: a `ValueError` on any cell
aborts the whole conversion (pandas converts the frame as a unit and raises;
there is no per-row error reporting). -/
def astypeFloat : List String → Except Unit (List (Coord × Coord))
  | [] => .ok []
  | r :: rs =>
    match rowToCoords r, astypeFloat rs with
    | .ok c, .ok cs => .ok (c :: cs)
    | _, _ => .error ()

/-- Embeds line 53 of `load_kobo_data`:
`df[['lat','lon']] = df['B2_Plot_location'].str.split(' ', expand=True).iloc[:, :2].astype(float)`.
If no row splits into at least two tokens, the expanded frame has fewer than
two columns and the two-column assignment itself raises; otherwise every
row's first two cells are converted, any conversion failure aborting the
whole batch. The surrounding `try` of `load_kobo_data` catches only
`requests` errors, so either failure propagates: the caller gets no
per-record results at all. -/
def loadCoords (rows : List String) : Except Unit (List (Coord × Coord)) :=
  if rows.all (fun r => (splitSpace r).length < 2) then .error ()
  else astypeFloat rows

/-- A vertex of a polygon ring, as `(x, y)` in degrees. -/
abbrev Vertex := Flt × Flt

/-- The edges of a ring: consecutive vertex pairs, closing back to the first
vertex (shapefile rings also repeat the first vertex last; the resulting
degenerate closing edge is harmless). -/
def edges (ring : List Vertex) : List (Vertex × Vertex) :=
  ring.zip (ring.rotate 1)

/-- Twice the signed area of triangle `a b c`; zero iff the three points are
collinear (for positive denominators). -/
def cross (a b c : Vertex) : Flt :=
  Flt.sub (Flt.mul (Flt.sub b.1 a.1) (Flt.sub c.2 a.2))
          (Flt.mul (Flt.sub b.2 a.2) (Flt.sub c.1 a.1))

/-- `p` lies exactly on the closed segment from `a` to `b`: collinear and
within the segment's bounding box (exact arithmetic, endpoints included). -/
def onSeg (p a b : Vertex) : Bool :=
  (cross a b p).isZero &&
    ((Flt.le a.1 p.1 && Flt.le p.1 b.1) || (Flt.le b.1 p.1 && Flt.le p.1 a.1)) &&
    ((Flt.le a.2 p.2 && Flt.le p.2 b.2) || (Flt.le b.2 p.2 && Flt.le p.2 a.2))

/-- `p` lies on the boundary of the ring: on some edge (vertices included,
since `onSeg` includes endpoints). -/
def onBoundary (p : Vertex) (ring : List Vertex) : Bool :=
  (edges ring).any (fun e => onSeg p e.1 e.2)

/-- One step of the even-odd ray-casting test: whether the horizontal ray
leftward from `p` crosses edge `(a, b)` (division-free form of
`p.x < a.x + (b.x - a.x) * (p.y - a.y) / (b.y - a.y)` under the half-open
vertical-span test). -/
def crossesRay (p a b : Vertex) : Bool :=
  if Flt.le a.2 p.2 && Flt.lt p.2 b.2 then
    Flt.lt (Flt.mul (Flt.sub p.1 a.1) (Flt.sub b.2 a.2))
           (Flt.mul (Flt.sub b.1 a.1) (Flt.sub p.2 a.2))
  else if Flt.le b.2 p.2 && Flt.lt p.2 a.2 then
    Flt.lt (Flt.mul (Flt.sub b.1 a.1) (Flt.sub p.2 a.2))
           (Flt.mul (Flt.sub p.1 a.1) (Flt.sub b.2 a.2))
  else false

/-- Even-odd (ray-casting) interior test over a ring. -/
def inRing (p : Vertex) (ring : List Vertex) : Bool :=
  decide (((edges ring).countP (fun e => crossesRay p e.1 e.2)) % 2 = 1)

/-- Models the shapely `intersects` predicate between a point and one polygon
ring (DE-9IM: a point intersects a polygon iff it lies in its closure, i.e.
on the boundary or in the interior — the inclusive boundary policy). -/
def polyIntersects (p : Vertex) (ring : List Vertex) : Bool :=
  onBoundary p ring || inRing p ring

/-- A geometry as stored in one row of a GeoDataFrame: a multi-polygon, kept
as the list of its constituent polygons' outer rings. -/
abbrev Geom := List (List Vertex)

/-- A point intersects a (multi-)polygon geometry iff it intersects some
constituent polygon. -/
def geomIntersects (p : Vertex) (g : Geom) : Bool :=
  g.any (polyIntersects p)

/-- `intersects` between a survey point and a geometry: a point with a NaN
coordinate intersects nothing; otherwise the shapely point is
`POINT (lon lat)`, so the vertex tested is `(lon, lat)`. -/
def ptIntersects (pt : Pt) (g : Geom) : Bool :=
  match pt with
  | (some lat, some lon) => geomIntersects (lon, lat) g
  | _ => false

/-- A GeoDataFrame of polygon geometries: its CRS identifier (EPSG code) and
its rows' geometries. -/
structure GeoFrame where
  crs : ℕ
  geoms : List Geom
  deriving DecidableEq

/-- Models `GeoDataFrame.to_crs` (lines 70-71): reprojects every vertex from
the frame's CRS to the target through the given point transform. The
transform between identical CRS is the identity (pyproj builds a no-op
transformer when source and target agree), so an already-WGS84 frame passes
through unchanged. -/
def to_crs (reproject : ℕ → ℕ → Vertex → Vertex) (target : ℕ) (gdf : GeoFrame) : GeoFrame :=
  if gdf.crs = target then gdf
  else { crs := target
         geoms := gdf.geoms.map (fun g => g.map (fun ring => ring.map (reproject gdf.crs target))) }

/-- Embeds the CRS normalization of `load_spatial_data` (lines 66-71): both
raw layers are reprojected to WGS84 (EPSG:4326). -/
def load_spatial_data (reproject : ℕ → ℕ → Vertex → Vertex)
    (peatland_raw protected_raw : GeoFrame) : GeoFrame × GeoFrame :=
  (to_crs reproject 4326 peatland_raw, to_crs reproject 4326 protected_raw)

/-- Embeds line 104, `gpd.sjoin(survey_gdf, protected_areas_gdf, how="inner",
predicate="intersects")`: one output row per (point, polygon) pair whose
geometries intersect, carrying the left (survey) dataframe's index — a point
matching several polygons contributes several rows. -/
def sjoinPairs (pts : List Pt) (geoms : List Geom) : List (ℕ × ℕ) :=
  (List.range pts.length).flatMap (fun i =>
    (List.range geoms.length).filterMap (fun j =>
      if ptIntersects (pts.getD i (none, none)) (geoms.getD j []) then some (i, j) else none))

/-- Models `df.index.isin(join.index)` over the default RangeIndex
`0 .. n-1`: one boolean per record. -/
def indexIsin (n : ℕ) (pairs : List (ℕ × ℕ)) : List Bool :=
  (List.range n).map (fun i => pairs.any (fun pr => decide (pr.1 = i)))

/-- Embeds lines 104-107: the `in_protected_area` column —
`df['in_protected_area'] = df.index.isin(points_in_protected_areas.index)`.
One boolean per record, true iff the spatial join matched the record's point
with at least one protected-area geometry. -/
def in_protected_area (pts : List Pt) (layer : GeoFrame) : List Bool :=
  indexIsin pts.length (sjoinPairs pts layer.geoms)

/-- Embeds the whole spatial-analysis section (lines 97-107) as a function of
the loaded inputs: the survey points and the two polygon layers. The script
computes only the `in_protected_area` column; the peatland frame is passed to
the map renderer but takes no part in any membership computation, which is
why `peatland` is unused here. -/
def analyze (pts : List Pt) (_peatland protected_areas : GeoFrame) : List Bool :=
  in_protected_area pts protected_areas

/-- The survey dataframe during the analysis section: its parsed coordinate
columns and its (initially absent, then assigned) `in_protected_area`
column. -/
structure SurveyFrame where
  coords : List Pt
  flags : List Bool
  deriving DecidableEq

/-- Embeds lines 97-107 as a state transformer on the dataframe, the way the
script mutates `df` in place: the `in_protected_area` column is recomputed
from the `lat`/`lon` columns and assigned. -/
def runAnalysis (protected_areas : GeoFrame) (df : SurveyFrame) : SurveyFrame :=
  { df with flags := in_protected_area df.coords protected_areas }

/-- One displayed row of `filtered_df` as the alert section reads it: the
farmer id used in the badge text and the `in_protected_area` flag. -/
structure Row where
  A3_Farmer_ID : String
  in_protected_area : Bool
  deriving DecidableEq

/-- Embeds line 456: `protected_alerts_df = filtered_df[filtered_df['in_protected_area']]`
(the rows listed under "Alert 1: Deforested Areas"). -/
def protected_alerts_df (filtered_df : List Row) : List Row :=
  filtered_df.filter (fun r => r.in_protected_area)

/-- Embeds line 468: `deforested_alerts_df = filtered_df[filtered_df['in_protected_area']]`
(the rows listed under "Alert 2: Protected Areas"). -/
def deforested_alerts_df (filtered_df : List Row) : List Row :=
  filtered_df.filter (fun r => r.in_protected_area)

/-- Whitespace tokenization in the sense of the spec's words ("whitespace-
separated tokens", i.e. Python `s.split()` with no argument): split on every
whitespace character and drop empty chunks. Used only to state what the spec
asserts, for comparison with `splitSpace`, which is what the code does. -/
def wsTokens (s : String) : List String :=
  ((splitCharP Char.isWhitespace s.data).filter (fun t => ¬ t.isEmpty)).map String.mk

/-- The spec's coordinate-range invariant: latitude in [-90, 90] and
longitude in [-180, 180]. -/
def inRange (lat lon : Flt) : Bool :=
  Flt.le (Flt.ofInt (-90)) lat && Flt.le lat (Flt.ofInt 90) &&
  Flt.le (Flt.ofInt (-180)) lon && Flt.le lon (Flt.ofInt 180)

example : loadCoords ["1.5 2.5 extra"] = .ok [(some ⟨15, 10⟩, some ⟨25, 10⟩)] := rfl
example : loadCoords ["not_a_number 2.5"] = .error () := rfl
example : loadCoords ["1.5"] = .error () := rfl
example : loadCoords ["1.5 2.5", "7"] = .ok [(some ⟨15, 10⟩, some ⟨25, 10⟩), (some ⟨7, 1⟩, none)] := rfl
example : parseFloat "-200.0" = some ⟨-2000, 10⟩ := rfl
example : wsTokens "1.5  2.5" = ["1.5", "2.5"] := rfl
example : loadCoords ["1.5  2.5"] = .error () := rfl

/-- The unit-square test ring (corners at (±1, ±1)), as a closed ring. -/
def sqRing : List Vertex :=
  [(⟨-1,1⟩, ⟨-1,1⟩), (⟨1,1⟩, ⟨-1,1⟩), (⟨1,1⟩, ⟨1,1⟩), (⟨-1,1⟩, ⟨1,1⟩), (⟨-1,1⟩, ⟨-1,1⟩)]

example : polyIntersects (⟨0,1⟩, ⟨0,1⟩) sqRing = true := by decide
example : polyIntersects (⟨5,1⟩, ⟨5,1⟩) sqRing = false := by decide
example : polyIntersects (⟨1,1⟩, ⟨0,1⟩) sqRing = true := by decide
example : onBoundary (⟨1,1⟩, ⟨0,1⟩) sqRing = true := by decide
example : inRing (⟨1,1⟩, ⟨0,1⟩) sqRing = false := by decide

/-- The unit square as a one-polygon geometry. -/
def sqGeom : Geom := [sqRing]

/-- A test layer holding the unit square, already in WGS84. -/
def sqFrame : GeoFrame := ⟨4326, [sqGeom]⟩

/-- A test layer with no geometries, already in WGS84. -/
def emptyFrame : GeoFrame := ⟨4326, []⟩

/-- A survey point at the origin (inside the unit square). -/
def originPt : Pt := (some ⟨0,1⟩, some ⟨0,1⟩)

/-! ## Helper lemmas -/

/-- The join rows carrying index `i` exist iff the `i`-th point intersects
some geometry of the layer. -/
theorem sjoin_any_eq (pts : List Pt) (geoms : List Geom) (i : ℕ) (hi : i < pts.length) :
    (sjoinPairs pts geoms).any (fun pr => decide (pr.1 = i)) =
      geoms.any (fun g => ptIntersects (pts.getD i (none, none)) g) := by
  rw [Bool.eq_iff_iff]
  simp only [List.any_eq_true, sjoinPairs, List.mem_flatMap, List.mem_filterMap,
    List.mem_range, decide_eq_true_eq]
  constructor
  · rintro ⟨pr, ⟨i', hi', j, hj, hif⟩, hpr1⟩
    by_cases hcond : ptIntersects (pts.getD i' (none, none)) (geoms.getD j []) = true
    · rw [if_pos hcond] at hif
      cases hif
      obtain rfl : i' = i := hpr1
      exact ⟨geoms.getD j [], by rw [List.getD_eq_getElem _ _ hj]; exact List.getElem_mem hj,
        hcond⟩
    · rw [if_neg hcond] at hif
      cases hif
  · rintro ⟨g, hg, hint⟩
    obtain ⟨j, hj, rfl⟩ := List.mem_iff_getElem.mp hg
    refine ⟨(i, j), ⟨i, hi, j, hj.trans_le (le_refl _), ?_⟩, rfl⟩
    rw [if_pos]
    rwa [List.getD_eq_getElem _ _ hj]

/-- The `in_protected_area` column is pointwise: one boolean per record,
true iff the record's point intersects some geometry of the layer. -/
theorem in_protected_area_eq_map (pts : List Pt) (layer : GeoFrame) :
    in_protected_area pts layer =
      pts.map (fun pt => layer.geoms.any (fun g => ptIntersects pt g)) := by
  unfold in_protected_area indexIsin
  apply List.ext_getElem
  · simp
  · intro i h1 h2
    simp only [List.getElem_map, List.getElem_range]
    rw [sjoin_any_eq pts layer.geoms i (by simpa using h2),
      List.getD_eq_getElem _ _ (by simpa using h2)]

/-- A failing row makes the whole vectorized conversion fail. -/
theorem astypeFloat_err {rows : List String} {r : String} (hr : r ∈ rows)
    (h : rowToCoords r = .error ()) : astypeFloat rows = .error () := by
  induction rows with
  | nil => cases hr
  | cons a as ih =>
    rcases List.mem_cons.mp hr with rfl | hmem
    · unfold astypeFloat
      rw [h]
    · unfold astypeFloat
      rw [ih hmem]
      cases rowToCoords a <;> rfl

/-- A non-numeric token in either of the first two cells fails the row. -/
theorem rowToCoords_err {r : String}
    (h : cellToFloat (splitSpace r)[0]? = .error () ∨
         cellToFloat (splitSpace r)[1]? = .error ()) :
    rowToCoords r = .error () := by
  unfold rowToCoords
  rcases h with h | h
  · rw [h]
  · rw [h]
    cases cellToFloat (splitSpace r)[0]? <;> rfl

/-! ## Claim theorems -/

/-- C1: for every survey point and every polygon layer the join is run
against, the per-record membership boolean (the `in_protected_area` column
derived from `gpd.sjoin` with `predicate="intersects"` and `df.index.isin`)
is true iff the point intersects at least one geometry of the layer — and
`ptIntersects` holds for a multi-polygon geometry iff some constituent
polygon contains the point. -/
theorem c1_join_membership_iff (pts : List Pt) (layer : GeoFrame) (i : ℕ)
    (hi : i < pts.length) :
    (in_protected_area pts layer).getD i false = true ↔
      ∃ g ∈ layer.geoms, ptIntersects (pts.getD i (none, none)) g = true := by
  rw [in_protected_area_eq_map]
  rw [List.getD_eq_getElem _ _ (by simpa using hi), List.getElem_map,
    List.getD_eq_getElem _ _ hi]
  simp [List.any_eq_true]

/-- Witness for C1: one point at the origin against a layer holding the unit
square. -/
theorem c1_join_membership_iff_witness :
    (in_protected_area [originPt] sqFrame).getD 0 false = true ↔
      ∃ g ∈ sqFrame.geoms, ptIntersects (([originPt] : List Pt).getD 0 (none, none)) g = true :=
  c1_join_membership_iff [originPt] sqFrame 0 (by decide)

/-- C2: a point lying exactly on a boundary edge of a polygon — boundary
vertices included, since `onSeg` includes the segment endpoints — is
classified as contained by the `intersects` containment test (inclusive
boundary policy), and the test is a pure function, so a repeated call on the
same inputs returns the same result. -/
theorem c2_boundary_inclusive (p : Vertex) (ring : List Vertex) (a b : Vertex)
    (he : (a, b) ∈ edges ring) (hs : onSeg p a b = true) :
    polyIntersects p ring = true ∧ polyIntersects p ring = polyIntersects p ring := by
  refine ⟨?_, rfl⟩
  unfold polyIntersects onBoundary
  rw [Bool.or_eq_true]
  exact Or.inl (List.any_eq_true.mpr ⟨(a, b), he, hs⟩)

/-- Witness for C2: the midpoint of the unit square's bottom edge. -/
theorem c2_boundary_inclusive_witness :
    polyIntersects (⟨0,1⟩, ⟨-1,1⟩) sqRing = true ∧
    polyIntersects (⟨0,1⟩, ⟨-1,1⟩) sqRing = polyIntersects (⟨0,1⟩, ⟨-1,1⟩) sqRing :=
  c2_boundary_inclusive (⟨0,1⟩, ⟨-1,1⟩) sqRing (⟨-1,1⟩, ⟨-1,1⟩) (⟨1,1⟩, ⟨-1,1⟩)
    (by decide) (by decide)

/-- C3 counterexample: a batch of two records where exactly one has a
non-numeric coordinate token. The claim requires N−1 = 1 membership result
plus exactly one reported MalformedCoordinate error and "never zero results";
the code's vectorized `astype(float)` instead raises, aborting the whole
batch with zero results — although the well-formed record alone would have
parsed. -/
theorem c3_counterexample :
    loadCoords ["1.0 2.0"] = .ok [(some ⟨10, 10⟩, some ⟨20, 10⟩)] ∧
    loadCoords ["1.0 2.0", "not_a_number 2.5"] = .error () :=
  ⟨rfl, rfl⟩

/-- C3 amended: a batch containing a record with a non-numeric token in
either of its first two cells is aborted as a whole: the load yields an
error and zero per-record results; no per-record error report exists. -/
theorem c3_batch_aborts (rows : List String) (r : String) (hr : r ∈ rows)
    (hbad : cellToFloat (splitSpace r)[0]? = .error () ∨
            cellToFloat (splitSpace r)[1]? = .error ()) :
    loadCoords rows = .error () := by
  unfold loadCoords
  split
  · rfl
  · exact astypeFloat_err hr (rowToCoords_err hbad)

/-- Witness for C3 amended: a two-record batch with one bad token aborts. -/
theorem c3_batch_aborts_witness : loadCoords ["1.0 2.0", "x 2.5"] = .error () :=
  c3_batch_aborts ["1.0 2.0", "x 2.5"] "x 2.5"
    (List.mem_cons_of_mem _ (List.mem_cons_self _ _)) (Or.inl rfl)

/-- C4 counterexample: a record whose latitude 200.0 is outside [-90, 90].
The claim requires it to be excluded from the join with a reported OutOfRange
error; the code parses it, builds the point and joins it as-is: the parse
succeeds, the range invariant is violated, and the record still receives a
membership flag (the output has an entry for it and no error anywhere). -/
theorem c4_counterexample :
    loadCoords ["200.0 5.0"] = .ok [(some ⟨2000, 10⟩, some ⟨50, 10⟩)] ∧
    inRange ⟨2000, 10⟩ ⟨50, 10⟩ = false ∧
    analyze [(some ⟨2000, 10⟩, some ⟨50, 10⟩)] emptyFrame sqFrame = [false] :=
  ⟨rfl, by decide, by decide⟩

/-- C4 amended: no range validation exists; a record with out-of-range
coordinates is neither excluded nor reported: it enters the spatial join
as-is and receives a membership flag computed from its raw coordinates. -/
theorem c4_no_range_check (lat lon : Flt) (pts : List Pt) (peat prot : GeoFrame)
    (_h : inRange lat lon = false) :
    analyze ((some lat, some lon) :: pts) peat prot =
      (prot.geoms.any (fun g => ptIntersects (some lat, some lon) g)) ::
        analyze pts peat prot := by
  unfold analyze
  rw [in_protected_area_eq_map, in_protected_area_eq_map, List.map_cons]

/-- Witness for C4 amended: latitude 200 is joined as-is. -/
theorem c4_no_range_check_witness :
    analyze [(some ⟨200, 1⟩, some ⟨5, 1⟩)] emptyFrame sqFrame =
      (sqFrame.geoms.any (fun g => ptIntersects (some ⟨200, 1⟩, some ⟨5, 1⟩) g)) ::
        analyze [] emptyFrame sqFrame :=
  c4_no_range_check ⟨200, 1⟩ ⟨5, 1⟩ [] emptyFrame sqFrame (by decide)

/-- C5 counterexample: a record lying inside a peatland polygon, with the
peatland layer loaded. The claim requires one flag per loaded layer, keyed by
layer name — in particular an "in peatland" flag; the analysis computes only
`in_protected_area`: its whole output for this record is the single boolean
false, reflecting nothing about the peatland membership that in fact
holds. -/
theorem c5_counterexample :
    ptIntersects originPt sqGeom = true ∧
    analyze [originPt] sqFrame emptyFrame = [false] :=
  ⟨by decide, by decide⟩

/-- C5 amended: exactly one membership flag is produced per record, for the
protected-areas layer only; the loaded peatland layer contributes no flag —
the analysis result does not depend on the peatland frame at all. -/
theorem c5_single_layer_flag (pts : List Pt) (peat peat' prot : GeoFrame) :
    analyze pts peat prot = in_protected_area pts prot ∧
    analyze pts peat prot = analyze pts peat' prot :=
  ⟨rfl, rfl⟩

/-- C6 counterexample: the raw string "1.5  2.5" (two spaces) contains at
least two whitespace-separated numeric tokens, so the claim requires it to
parse to (1.5, 2.5); the code splits on single spaces, producing an empty
middle cell whose float conversion raises, so the load errors instead. -/
theorem c6_counterexample :
    wsTokens "1.5  2.5" = ["1.5", "2.5"] ∧
    (parseFloat "1.5").isSome = true ∧ (parseFloat "2.5").isSome = true ∧
    loadCoords ["1.5  2.5"] = .error () :=
  ⟨rfl, rfl, rfl, rfl⟩

/-- C6 amended: for a raw positional string whose single-space-split cell
list has at least two cells, with the first two parseable as floats, the
parser takes the first as latitude and the second as longitude, ignoring any
additional tokens. -/
theorem c6_first_two_tokens (s : String) (la lo : Flt)
    (h0 : parseFloat ((splitSpace s).getD 0 "") = some la)
    (h1 : parseFloat ((splitSpace s).getD 1 "") = some lo)
    (hlen : 2 ≤ (splitSpace s).length) :
    loadCoords [s] = .ok [(some la, some lo)] := by
  have e0 : (splitSpace s)[0]? = some ((splitSpace s).getD 0 "") := by
    rw [List.getD_eq_getElem _ _ (by omega), List.getElem?_eq_getElem (by omega)]
  have e1 : (splitSpace s)[1]? = some ((splitSpace s).getD 1 "") := by
    rw [List.getD_eq_getElem _ _ (by omega), List.getElem?_eq_getElem (by omega)]
  have h0' : cellToFloat (splitSpace s)[0]? = .ok (some la) := by
    rw [e0]
    simp only [cellToFloat]
    rw [h0]
  have h1' : cellToFloat (splitSpace s)[1]? = .ok (some lo) := by
    rw [e1]
    simp only [cellToFloat]
    rw [h1]
  have hr : rowToCoords s = .ok (some la, some lo) := by
    unfold rowToCoords
    rw [h0', h1']
  have ha : astypeFloat [s] = .ok [(some la, some lo)] := by
    unfold astypeFloat
    rw [hr]
    rfl
  unfold loadCoords
  rw [if_neg, ha]
  simp only [List.all_cons, List.all_nil, Bool.and_true, decide_eq_true_eq]
  omega

/-- Witness for C6 amended: "1.5 2.5 extra" parses to (1.5, 2.5) with the
extra token ignored. -/
theorem c6_first_two_tokens_witness :
    loadCoords ["1.5 2.5 extra"] = .ok [(some ⟨15, 10⟩, some ⟨25, 10⟩)] :=
  c6_first_two_tokens "1.5 2.5 extra" ⟨15, 10⟩ ⟨25, 10⟩ rfl rfl (by decide)

/-- C7: two invocations of the analysis over identical point and layer
inputs produce identical membership results. The script's analysis is a pure
recomputation of the `in_protected_area` column from the coordinate columns,
which it never changes: rerunning it on the frame already mutated by the
first run yields the very same frame, so no hidden mutable state or caching
affects the outcome. -/
theorem c7_deterministic (prot : GeoFrame) (df : SurveyFrame) :
    runAnalysis prot (runAnalysis prot df) = runAnalysis prot df :=
  rfl

/-- C8: if a layer's source CRS is already WGS84 (EPSG:4326), CRS
normalization is a no-op: for any point transform, the returned layer is the
input layer itself, so its coordinates are geometrically identical. -/
theorem c8_wgs84_noop (reproject : ℕ → ℕ → Vertex → Vertex) (gdf : GeoFrame)
    (h : gdf.crs = 4326) : to_crs reproject 4326 gdf = gdf := by
  unfold to_crs
  rw [if_pos h]

/-- Witness for C8: a WGS84 layer passes through a nontrivial transform
unchanged. -/
theorem c8_wgs84_noop_witness :
    to_crs (fun _ _ v => (v.2, v.1)) 4326 sqFrame = sqFrame :=
  c8_wgs84_noop (fun _ _ v => (v.2, v.1)) sqFrame rfl

/-- C9: every record of the batch receives exactly one membership flag: the
flag column has the same length as the input batch, record `i`'s flag sitting
at position `i` of the dataframe's RangeIndex — so a point intersecting
several polygons of the layer (several join rows) still contributes a single
boolean, never duplicated records. -/
theorem c9_one_flag_per_record (pts : List Pt) (layer : GeoFrame) :
    (in_protected_area pts layer).length = pts.length := by
  unfold in_protected_area indexIsin
  rw [List.length_map, List.length_range]

/-- C10: Alert 1 ("Deforested Areas", line 456) and Alert 2 ("Protected
Areas", line 468) filter `filtered_df` by the same `in_protected_area` flag,
so their member lists — and hence their counts — are always identical. -/
theorem c10_alerts_identical (filtered_df : List Row) :
    protected_alerts_df filtered_df = deforested_alerts_df filtered_df ∧
    (protected_alerts_df filtered_df).length = (deforested_alerts_df filtered_df).length :=
  ⟨rfl, rfl⟩

end Traceability
